import Mathlib

/-!
Shallow embedding of `src/data_quality/validators/base_validator.py`
(class `DataValidator`) and proofs about its validation functions.

Modelling conventions:
* A pandas `DataFrame` is a list of named columns (`Series`); each series
  carries its dtype string and its cells.  Cell values are `Value.null`
  (NaN/NaT/None), numeric rationals, or timestamps (epoch seconds plus an
  optional timezone label).
* Python `set` objects become `Finset String`; Python dicts become
  association lists `List (String × _)` with first-match lookup, which is
  how the claims' inputs (unique-keyed dicts) behave.
* Pandas floating-point statistics are modelled by `PF`: either NaN, an
  exact rational, or `PF.sqrtv q`, the (possibly irrational) square root of
  a nonnegative rational — the sample standard deviation.  Comparisons of a
  `PF` against a rational threshold mirror IEEE semantics: any comparison
  with NaN is false, and `sqrtv q` compares via squaring (exact for the
  real square root, see `sqrtv_ltQ_correct`/`sqrtv_gtQ_correct`).
* Wall-clock timestamps recorded in result records (`datetime.now(...)`)
  are metadata irrelevant to every claim and are not modelled; for the
  freshness check "now" is an explicit parameter (the spec itself says the
  clock must be injectable).
* ISO-8601 rendering of timestamps and the `:.2f` float formatting inside
  the staleness message are not modelled; the recorded values themselves
  are.
-/

set_option autoImplicit false

namespace DataValidator

/-- A cell of a dataframe: missing (NaN/NaT/None), a numeric value, or a
timestamp given by epoch seconds and an optional timezone label. -/
inductive Value where
  | null : Value
  | num (q : ℚ) : Value
  | ts (epoch : ℚ) (tz : Option String) : Value
deriving DecidableEq

/-- A pandas `Series`: a dtype string plus the list of cells. -/
structure Series where
  dtype : String
  cells : List Value
deriving DecidableEq

/-- A pandas `DataFrame`: an ordered association of column names to series. -/
structure DataFrame where
  cols : List (String × Series)
deriving DecidableEq

/-- `df.columns`. -/
def DataFrame.columns (df : DataFrame) : List String := df.cols.map Prod.fst

/-- Number of rows (length of the index): length of the first column, `0`
for a column-less frame. -/
def DataFrame.nrows (df : DataFrame) : Nat :=
  match df.cols with
  | [] => 0
  | c :: _ => c.2.cells.length

/-- `df.empty`: true when an axis has length zero. -/
def DataFrame.isEmptyDf (df : DataFrame) : Bool := df.nrows == 0

/-- `df[col]` lookup. -/
def DataFrame.getCol (df : DataFrame) (c : String) : Option Series :=
  df.cols.lookup c

/-! ### `_dtype_compatible` -/

/-- `in` on Python strings: `leadsWith n h` is true when `n` is an initial
segment of `h`. -/
def leadsWith : List Char → List Char → Bool
  | [], _ => true
  | _ :: _, [] => false
  | a :: as, b :: bs => a == b && leadsWith as bs

/-- `needle in hay` for strings (substring containment), on char lists. -/
def hasSub (needle : List Char) : List Char → Bool
  | [] => leadsWith needle []
  | c :: t => leadsWith needle (c :: t) || hasSub needle t

/-- Python `needle in hay` on strings. -/
def strIn (needle hay : String) : Bool := hasSub needle.toList hay.toList

/-- The fixed `dtype_mappings` table of `_dtype_compatible`. -/
def dtype_mappings : List (String × List String) :=
  [("int", ["int8", "int16", "int32", "int64", "Int8", "Int16", "Int32", "Int64"]),
   ("float", ["float16", "float32", "float64", "Float32", "Float64"]),
   ("string", ["object", "string", "category"]),
   ("datetime", ["datetime64", "datetime64[ns]", "datetime64[ns, UTC]"]),
   ("bool", ["bool", "boolean"])]

/-- `DataValidator._dtype_compatible`: scan the family table for the first
family named `expected`; a hit answers by substring membership of one of the
family's concrete dtypes in `actual`, a miss falls back to string equality. -/
def dtype_compatible (actual expected : String) : Bool :=
  match dtype_mappings.find? (fun p => p.1 == expected) with
  | some p => p.2.any (fun d => strIn d actual)
  | none => actual == expected

/-! ### `validate_schema` -/

/-- A mismatch triple collected by the dtype check of `validate_schema`. -/
structure DtypeMismatch where
  column : String
  expected : String
  actual : String
deriving DecidableEq

/-- One entry of the `errors` list of a schema result.  Each constructor is
one of the four dict shapes the Python code appends (its `type` string plus
its payload). -/
inductive SchemaError where
  | empty_dataframe (message : String)
  | missing_columns (columns : Finset String)
  | unexpected_columns (columns : Finset String)
  | dtype_mismatch (mismatches : List DtypeMismatch)
deriving DecidableEq

/-- The `type` string of a schema error entry. -/
def SchemaError.typeName : SchemaError → String
  | .empty_dataframe _ => "empty_dataframe"
  | .missing_columns _ => "missing_columns"
  | .unexpected_columns _ => "unexpected_columns"
  | .dtype_mismatch _ => "dtype_mismatch"

/-- Result record of `validate_schema` (`validation_type = "schema"`); the
wall-clock `timestamp` field is not modelled. -/
structure SchemaResult where
  passed : Bool
  errors : List SchemaError
deriving DecidableEq

/-- The `dtype_mismatches` list built by the loop over `expected_dtypes`:
declared columns present in the frame whose concrete dtype is incompatible
with the declared family. -/
def dtypeMismatches (df : DataFrame) (expected_dtypes : List (String × String)) :
    List DtypeMismatch :=
  expected_dtypes.filterMap (fun p =>
    match df.getCol p.1 with
    | some s => if dtype_compatible s.dtype p.2 then none
                else some ⟨p.1, p.2, s.dtype⟩
    | none => none)

/-- `DataValidator.validate_schema`.  `df = none` models passing `None`. -/
def validate_schema (df : Option DataFrame) (expected_columns : List String)
    (expected_dtypes : List (String × String)) : SchemaResult :=
  match df with
  | none =>
      ⟨false, [.empty_dataframe "DataFrame is None or empty"]⟩
  | some df =>
    if df.isEmptyDf then
      ⟨false, [.empty_dataframe "DataFrame is None or empty"]⟩
    else
      let missing : Finset String :=
        expected_columns.toFinset \ df.columns.toFinset
      let unexpected : Finset String :=
        df.columns.toFinset \ expected_columns.toFinset
      let mismatches := dtypeMismatches df expected_dtypes
      ⟨decide (missing = ∅) && mismatches.isEmpty,
       (if missing ≠ ∅ then [SchemaError.missing_columns missing] else []) ++
       (if unexpected ≠ ∅ then [SchemaError.unexpected_columns unexpected] else []) ++
       (if ¬ mismatches.isEmpty then [SchemaError.dtype_mismatch mismatches] else [])⟩

/-! ### `validate_statistical_properties`

Pandas per-column statistics with default `ddof = 1` for `std`:
* `mean`/`min`/`max` skip nulls and are NaN when no non-null value exists;
* `std` is NaN when fewer than two non-null values exist, else the square
  root of the sample variance;
* `isnull().mean()` is the null fraction over the series length, NaN for a
  length-zero series.
-/

/-- A pandas float statistic: NaN, an exact rational, or the real square
root of a nonnegative rational (the sample standard deviation). -/
inductive PF where
  | nan : PF
  | num (q : ℚ) : PF
  | sqrtv (q : ℚ) : PF
deriving DecidableEq

/-- `stat_value < threshold` with IEEE NaN semantics; `sqrtv q < t` is
decided by squaring, exactly as the real comparison (`sqrtv_ltQ_correct`). -/
def PF.ltQ : PF → ℚ → Bool
  | .nan, _ => false
  | .num a, t => decide (a < t)
  | .sqrtv a, t => decide (0 < t) && decide (a < t ^ 2)

/-- `stat_value > threshold` with IEEE NaN semantics. -/
def PF.gtQ : PF → ℚ → Bool
  | .nan, _ => false
  | .num a, t => decide (t < a)
  | .sqrtv a, t => decide (t < 0) || decide (t ^ 2 < a)

/-- Non-null numeric values of a series (what `mean`/`std`/`min`/`max`
aggregate over). -/
def Series.nums (s : Series) : List ℚ :=
  s.cells.filterMap (fun v => match v with | .num q => some q | _ => none)

/-- `df[col].mean()`. -/
def Series.meanPF (s : Series) : PF :=
  match s.nums with
  | [] => .nan
  | vs => .num (vs.sum / vs.length)

/-- `df[col].std()` (sample standard deviation, `ddof = 1`). -/
def Series.stdPF (s : Series) : PF :=
  match s.nums with
  | [] => .nan
  | [_] => .nan
  | vs =>
    let m : ℚ := vs.sum / vs.length
    .sqrtv ((vs.map (fun x => (x - m) ^ 2)).sum / (vs.length - 1 : ℕ))

/-- `df[col].min()`. -/
def Series.minPF (s : Series) : PF :=
  match s.nums with
  | [] => .nan
  | v :: vs => .num (vs.foldl min v)

/-- `df[col].max()`. -/
def Series.maxPF (s : Series) : PF :=
  match s.nums with
  | [] => .nan
  | v :: vs => .num (vs.foldl max v)

/-- `df[col].isnull().mean()`: fraction of null cells. -/
def Series.nullRatePF (s : Series) : PF :=
  if s.cells.length = 0 then .nan
  else .num ((s.cells.countP (fun v => v == .null) : ℚ) / s.cells.length)

/-- The `stats` dict of `validate_statistical_properties`, in insertion
order. -/
def computeStats (s : Series) : List (String × PF) :=
  [("mean", s.meanPF), ("std", s.stdPF), ("min", s.minPF),
   ("max", s.maxPF), ("null_rate", s.nullRatePF)]

/-- One violation record `{stat, value, threshold, type}`. -/
structure StatViolation where
  stat : String
  value : PF
  threshold : ℚ
  type : String
deriving DecidableEq

/-- The per-column entry `{column, violations}` appended to the result. -/
structure ColViolations where
  column : String
  violations : List StatViolation
deriving DecidableEq

/-- Result record of `validate_statistical_properties`
(`validation_type = "statistical"`); wall-clock `timestamp` not modelled. -/
structure StatResult where
  passed : Bool
  violations : List ColViolations
deriving DecidableEq

/-- The two bound checks the loop body runs for one statistic: the
`{stat}_min` check (type `below_min`) then the `{stat}_max` check
(type `above_max`). -/
def checkStat (thr : List (String × ℚ)) (statName : String) (v : PF) :
    List StatViolation :=
  (match thr.lookup (statName ++ "_min") with
   | some b => if v.ltQ b then [⟨statName, v, b, "below_min"⟩] else []
   | none => []) ++
  (match thr.lookup (statName ++ "_max") with
   | some b => if v.gtQ b then [⟨statName, v, b, "above_max"⟩] else []
   | none => [])

/-- Body of the `for col in numeric_columns` loop, threading the
`(passed, violations)` accumulator exactly as the Python mutations do. -/
def statStep (df : DataFrame) (thresholds : List (String × List (String × ℚ)))
    (acc : Bool × List ColViolations) (col : String) : Bool × List ColViolations :=
  match df.getCol col with
  | none => acc
  | some s =>
    let stats := computeStats s
    match thresholds.lookup col with
    | none => acc
    | some thr =>
      let viols := stats.flatMap (fun p => checkStat thr p.1 p.2)
      if viols.isEmpty then acc
      else (false, acc.2 ++ [⟨col, viols⟩])

/-- `DataValidator.validate_statistical_properties`. -/
def validate_statistical_properties (df : DataFrame)
    (numeric_columns : List String)
    (thresholds : List (String × List (String × ℚ))) : StatResult :=
  let r := numeric_columns.foldl (statStep df thresholds) (true, [])
  ⟨r.1, r.2⟩

/-! ### `validate_freshness`

Timestamps are epoch seconds (`ℚ`) plus an optional timezone label.  "Now"
is an explicit parameter.  Because `df.copy()` / in-place column assignment
is the point of claim C9, the function is first given as a state
transformer over a small heap of dataframes (`PdHeap`), mirroring Python
references; a pure wrapper runs it on a one-cell heap.
-/

/-- A concrete timestamp: epoch seconds plus optional timezone. -/
structure TS where
  epoch : ℚ
  tz : Option String
deriving DecidableEq

/-- `pd.to_datetime` on one cell: nulls stay NaT, numbers become naive
timestamps, timestamps are unchanged. -/
def Value.toDatetime : Value → Value
  | .null => .null
  | .num q => .ts q none
  | .ts t z => .ts t z

/-- `series.max()` over a timestamp column: latest timestamp, `none` (NaT)
when the column holds no timestamp. -/
def latestTS (cells : List Value) : Option TS :=
  cells.foldl (fun acc v =>
    match v with
    | .ts t z =>
      match acc with
      | none => some ⟨t, z⟩
      | some m => if m.epoch < t then some ⟨t, z⟩ else some m
    | _ => acc) none

/-- The `current_time` pick: `pd.Timestamp.now(tz)` when the latest
timestamp carries a timezone, a naive `pd.Timestamp.now()` otherwise (also
when `latest` is NaT, whose `tz` is `None`). -/
def currentTime (now : ℚ) (latest : Option TS) : TS :=
  match latest with
  | some l =>
    match l.tz with
    | some z => ⟨now, some z⟩
    | none => ⟨now, none⟩
  | none => ⟨now, none⟩

/-- The `details` dict of a freshness result: either the early
missing-column shape `{error}` or the computed shape
`{latest_timestamp, current_time, staleness_hours, max_staleness_hours}`
with an optional `error` key. -/
inductive FreshDetails where
  | missingColumn (error : String)
  | computed (latest_timestamp : Option TS) (current_time : TS)
      (staleness_hours : Option ℚ) (max_staleness_hours : ℚ)
      (error : Option String)
deriving DecidableEq

/-- Whether the `details` dict carries an `error` key. -/
def FreshDetails.hasError : FreshDetails → Bool
  | .missingColumn _ => true
  | .computed _ _ _ _ e => e.isSome

/-- Result record of `validate_freshness` (`validation_type = "freshness"`);
wall-clock result `timestamp` not modelled. -/
structure FreshResult where
  passed : Bool
  details : FreshDetails
deriving DecidableEq

/-- The early-return message `Timestamp column '<c>' not found`. -/
def missingColMsg (c : String) : String :=
  "Timestamp column \x27" ++ c ++ "\x27 not found"

/-- The staleness-exceeded message (the `:.2f` rounding of the Python
f-string is not modelled; the reported quantities are). -/
def staleMsg (sh maxH : ℚ) : String :=
  "Data is " ++ toString sh ++ " hours old, exceeds max of " ++
    toString maxH ++ " hours"

/-- Tail of `validate_freshness` after the latest timestamp is known:
choose `current_time`, compute `staleness_hours`, fill `details`, and flip
`passed` with an `error` message when the strict bound `staleness_hours >
max_staleness_hours` fires.  (`current_time − latest` is a difference of
epochs; a NaT latest gives NaN staleness, and `NaN > max` is false.) -/
def freshVerdict (now : ℚ) (latest : Option TS) (maxH : ℚ) : FreshResult :=
  let current := currentTime now latest
  let staleness : Option ℚ := latest.map (fun l => (current.epoch - l.epoch) / 3600)
  match staleness with
  | none => ⟨true, .computed latest current none maxH none⟩
  | some sh =>
    if sh > maxH then
      ⟨false, .computed latest current (some sh) maxH (some (staleMsg sh maxH))⟩
    else
      ⟨true, .computed latest current (some sh) maxH none⟩

/-- A heap of dataframes; a Python dataframe reference is an index. -/
structure PdHeap where
  dfs : List DataFrame
deriving DecidableEq

/-- Column assignment `df[c] = s` (the column is present in our uses). -/
def DataFrame.setCol (df : DataFrame) (c : String) (s : Series) : DataFrame :=
  ⟨df.cols.map (fun p => if p.1 = c then (p.1, s) else p)⟩

/-- `DataValidator.validate_freshness` as a state transformer: `ref` is the
caller's dataframe reference; `df.copy()` allocates a fresh heap cell and
the `pd.to_datetime` assignment mutates that cell in place. -/
def validate_freshness_st (now : ℚ) (h : PdHeap) (ref : Nat) (c : String)
    (maxH : ℚ) : PdHeap × FreshResult :=
  let df := h.dfs.getD ref ⟨[]⟩
  if c ∈ df.columns then
    let copyRef := h.dfs.length
    let h1 : PdHeap := ⟨h.dfs ++ [df]⟩
    let oldSeries := ((h1.dfs.getD copyRef ⟨[]⟩).getCol c).getD ⟨"", []⟩
    let newSeries : Series := ⟨"datetime64[ns]", oldSeries.cells.map Value.toDatetime⟩
    let h2 : PdHeap :=
      ⟨h1.dfs.set copyRef ((h1.dfs.getD copyRef ⟨[]⟩).setCol c newSeries)⟩
    let dfc := h2.dfs.getD copyRef ⟨[]⟩
    let latest := latestTS (((dfc.getCol c).map Series.cells).getD [])
    (h2, freshVerdict now latest maxH)
  else
    (h, ⟨false, .missingColumn (missingColMsg c)⟩)

/-- `validate_freshness` on a caller-owned dataframe: run the state
transformer on a one-cell heap and keep the result record. -/
def validate_freshness (now : ℚ) (df : DataFrame) (c : String) (maxH : ℚ) :
    FreshResult :=
  (validate_freshness_st now ⟨[df]⟩ 0 c maxH).2

/-- The latest timestamp `validate_freshness` derives from a dataframe:
max of the `to_datetime`-converted timestamp column. -/
def freshLatest (df : DataFrame) (c : String) : Option TS :=
  latestTS ((((df.getCol c).getD ⟨"", []⟩).cells).map Value.toDatetime)

/-- The `staleness_hours` value `validate_freshness` computes. -/
def freshStaleness (now : ℚ) (df : DataFrame) (c : String) : Option ℚ :=
  (freshLatest df c).map (fun l => (now - l.epoch) / 3600)

/-! ### `validate_data_quality` (delegation to Great Expectations)

The Great Expectations collaborator is external to the repository; it is
modelled as a record of fallible operations (`Except String` carries the
message of a raised exception).  The `try` block sequences the collaborator
calls; the `except` clause is the `.error` branch.
-/

/-- One per-expectation outcome returned by the collaborator.  The
`result` payload is opaque to the core and kept as a string. -/
structure GxExpectationResult where
  success : Bool
  expectation_type : String
  kwargs : List (String × String)
  result : String
deriving DecidableEq

/-- The collaborator's overall validation outcome. -/
structure GxValidationResult where
  success : Bool
  statistics : List (String × ℚ)
  results : List GxExpectationResult
deriving DecidableEq

/-- The collaborator interface used inside the `try` block: suite lookup,
validator construction, and execution; each may raise. -/
structure GxContext where
  get_expectation_suite : String → Except String Unit
  get_validator : String → Except String Unit
  validate : DataFrame → Except String GxValidationResult

/-- A reduced failed-expectation record `{expectation, kwargs, result}`. -/
structure FailedExpectation where
  expectation : String
  kwargs : List (String × String)
  result : String
deriving DecidableEq

/-- The `result_summary` of `validate_data_quality`: the except-branch
shape `{error}` or the success shape (wall-clock `timestamp` not
modelled). -/
inductive QualitySummary where
  | failure (error : String)
  | summary (suite_name : String) (passed : Bool)
      (statistics : List (String × ℚ))
      (failed_expectations : List FailedExpectation)
deriving DecidableEq

/-- `DataValidator.validate_data_quality`. -/
def validate_data_quality (ctx : GxContext) (df : DataFrame)
    (suiteName : String) : Bool × QualitySummary :=
  match (do
      _ ← ctx.get_expectation_suite suiteName
      _ ← ctx.get_validator suiteName
      ctx.validate df : Except String GxValidationResult) with
  | .error e => (false, .failure e)
  | .ok vr =>
    let passed := vr.success
    let failed : List FailedExpectation :=
      if passed then []
      else
        vr.results.filterMap (fun r =>
          if r.success then none
          else some ⟨r.expectation_type, r.kwargs, r.result⟩)
    (passed, .summary suiteName passed vr.statistics failed)

/-! ### `generate_validation_report` -/

/-- The projection of one result dict the report counts look at:
`r.get("passed", False)`, with `none` for a dict lacking the key. -/
structure ReportEntry where
  passed : Option Bool
deriving DecidableEq

/-- The aggregated report (wall-clock `timestamp` and the JSON file write
are not modelled). -/
structure Report where
  total_validations : Nat
  passed : Nat
  failed : Nat
  results : List ReportEntry
deriving DecidableEq

/-- `DataValidator.generate_validation_report` (the built dict; the
`json.dump` side effect is outside the model). -/
def generate_validation_report (rs : List ReportEntry) : Report :=
  ⟨rs.length,
   (rs.filter (fun r => r.passed.getD false)).length,
   (rs.filter (fun r => ! r.passed.getD false)).length,
   rs⟩

/-! ### Concrete sample inputs used by witnesses and counterexamples -/

/-- A one-cell `int64` series holding the value 5. -/
def s64 : Series := ⟨"int64", [.num 5]⟩

/-- A one-row frame with columns `a`, `b`. -/
def df1 : DataFrame := ⟨[("a", s64), ("b", s64)]⟩

/-- A one-row frame with a single numeric column `x` (value 5). -/
def dfx : DataFrame := ⟨[("x", s64)]⟩

/-- A frame with a naive timestamp column `t` (epochs 0 and 3600 s). -/
def dft : DataFrame := ⟨[("t", ⟨"datetime64[ns]", [.ts 0 none, .ts 3600 none]⟩)]⟩

/-- A collaborator whose suite lookup raises. -/
def gxFailCtx : GxContext :=
  ⟨fun _ => .error "Suite not found", fun _ => .ok (), fun _ => .ok ⟨true, [], []⟩⟩

/-! ## Supporting lemmas -/

/-- `find?` on an association list by key is `lookup`, with the key of the
found entry equal to the queried key. -/
theorem find?_eq_lookup_map {α : Type} (l : List (String × α)) (k : String) :
    l.find? (fun p => p.1 == k) = (l.lookup k).map (fun v => (k, v)) := by
  induction l with
  | nil => rfl
  | cons p t ih =>
    by_cases h : p.1 = k
    · cases p
      subst h
      simp [List.find?, List.lookup]
    · have hk : ¬ (k = p.1) := fun hh => h hh.symm
      have h1 : (p.1 == k) = false := by simp [h]
      have h2 : (k == p.1) = false := by simp [hk]
      simp [List.find?, List.lookup, h1, h2, ih]

/-- The squaring comparison used for the standard deviation agrees with the
real square root: `sqrtv a < t` decides `Real.sqrt a < t`. -/
theorem sqrtv_ltQ_correct (a t : ℚ) :
    PF.ltQ (.sqrtv a) t = true ↔ Real.sqrt (a : ℝ) < (t : ℝ) := by
  simp only [PF.ltQ, Bool.and_eq_true, decide_eq_true_eq]
  constructor
  · rintro ⟨ht, hlt⟩
    have ht' : (0 : ℝ) < (t : ℝ) := by exact_mod_cast ht
    rw [Real.sqrt_lt' ht']
    exact_mod_cast hlt
  · intro hlt
    have h0 : (0 : ℝ) ≤ Real.sqrt (a : ℝ) := Real.sqrt_nonneg _
    have ht' : (0 : ℝ) < (t : ℝ) := lt_of_le_of_lt h0 hlt
    have ht : 0 < t := by exact_mod_cast ht'
    refine ⟨ht, ?_⟩
    have := (Real.sqrt_lt' ht').mp hlt
    exact_mod_cast this

/-- The squaring comparison used for the standard deviation agrees with the
real square root: `sqrtv a > t` decides `t < Real.sqrt a`. -/
theorem sqrtv_gtQ_correct (a t : ℚ) :
    PF.gtQ (.sqrtv a) t = true ↔ (t : ℝ) < Real.sqrt (a : ℝ) := by
  simp only [PF.gtQ, Bool.or_eq_true, decide_eq_true_eq]
  constructor
  · rintro (ht | hgt)
    · calc (t : ℝ) < 0 := by exact_mod_cast ht
        _ ≤ Real.sqrt (a : ℝ) := Real.sqrt_nonneg _
    · by_cases ht : 0 ≤ t
      · have ht' : (0 : ℝ) ≤ (t : ℝ) := by exact_mod_cast ht
        exact (Real.lt_sqrt ht').mpr (by exact_mod_cast hgt)
      · have ht' : (t : ℝ) < 0 := by exact_mod_cast lt_of_not_ge ht
        exact lt_of_lt_of_le ht' (Real.sqrt_nonneg _)
  · intro hlt
    by_cases ht : t < 0
    · exact Or.inl ht
    · right
      have ht' : (0 : ℝ) ≤ (t : ℝ) := by exact_mod_cast not_lt.mp ht
      have := (Real.lt_sqrt (y := (a : ℝ)) ht').mp hlt
      exact_mod_cast this

/-- The contribution of one `numeric_columns` entry to the violations
list: empty for absent columns, columns without thresholds, and columns
without violations; a singleton entry otherwise. -/
def statEntry (df : DataFrame) (thresholds : List (String × List (String × ℚ)))
    (col : String) : List ColViolations :=
  match df.getCol col with
  | none => []
  | some s =>
    match thresholds.lookup col with
    | none => []
    | some thr =>
      let viols := (computeStats s).flatMap (fun p => checkStat thr p.1 p.2)
      if viols.isEmpty then [] else [⟨col, viols⟩]

theorem statStep_eq (df : DataFrame) (thresholds : List (String × List (String × ℚ)))
    (acc : Bool × List ColViolations) (col : String) :
    statStep df thresholds acc col =
      (acc.1 && (statEntry df thresholds col).isEmpty,
       acc.2 ++ statEntry df thresholds col) := by
  unfold statStep statEntry
  cases hs : df.getCol col with
  | none => simp
  | some s =>
    cases ht : thresholds.lookup col with
    | none => simp
    | some thr =>
      by_cases hv : ((computeStats s).flatMap (fun p => checkStat thr p.1 p.2)).isEmpty
      · simp [hv, List.isEmpty_iff.mp hv]
      · simp [hv, eq_false_intro hv]

theorem isEmpty_append_eq {α : Type} (l₁ l₂ : List α) :
    (l₁ ++ l₂).isEmpty = (l₁.isEmpty && l₂.isEmpty) := by
  cases l₁ <;> simp

theorem foldl_statStep (df : DataFrame) (thresholds : List (String × List (String × ℚ)))
    (l : List String) (acc : Bool × List ColViolations) :
    l.foldl (statStep df thresholds) acc =
      (acc.1 && (l.flatMap (statEntry df thresholds)).isEmpty,
       acc.2 ++ l.flatMap (statEntry df thresholds)) := by
  induction l generalizing acc with
  | nil => simp
  | cons c t ih =>
    rw [List.foldl_cons, statStep_eq, ih]
    simp [Bool.and_assoc, isEmpty_append_eq]

/-- `validate_statistical_properties` in closed form: the violations are
the per-column contributions in order, and `passed` is their emptiness. -/
theorem validate_statistical_properties_eq (df : DataFrame)
    (ncols : List String) (thresholds : List (String × List (String × ℚ))) :
    validate_statistical_properties df ncols thresholds =
      ⟨(ncols.flatMap (statEntry df thresholds)).isEmpty,
       ncols.flatMap (statEntry df thresholds)⟩ := by
  unfold validate_statistical_properties
  rw [foldl_statStep]
  simp

theorem checkStat_nan (thr : List (String × ℚ)) (n : String) :
    checkStat thr n .nan = [] := by
  unfold checkStat
  cases thr.lookup (n ++ "_min") <;> cases thr.lookup (n ++ "_max") <;>
    simp [PF.ltQ, PF.gtQ]

theorem checkStat_stat (thr : List (String × ℚ)) (n : String) (pv : PF)
    (v : StatViolation) (hv : v ∈ checkStat thr n pv) : v.stat = n := by
  unfold checkStat at hv
  rcases List.mem_append.mp hv with h | h
  · cases hlk : thr.lookup (n ++ "_min") with
    | none => rw [hlk] at h; simp at h
    | some b =>
      rw [hlk] at h
      by_cases hb : pv.ltQ b = true
      · simp [hb] at h; subst h; rfl
      · simp [hb] at h
  · cases hlk : thr.lookup (n ++ "_max") with
    | none => rw [hlk] at h; simp at h
    | some b =>
      rw [hlk] at h
      by_cases hb : pv.gtQ b = true
      · simp [hb] at h; subst h; rfl
      · simp [hb] at h

/-- Members of `computeStats` are determined by their stat name. -/
theorem computeStats_mem (s : Series) (n : String) (pv : PF)
    (h : (n, pv) ∈ computeStats s) :
    (n = "mean" ∧ pv = s.meanPF) ∨ (n = "std" ∧ pv = s.stdPF) ∨
    (n = "min" ∧ pv = s.minPF) ∨ (n = "max" ∧ pv = s.maxPF) ∨
    (n = "null_rate" ∧ pv = s.nullRatePF) := by
  simp only [computeStats, List.mem_cons, List.mem_singleton,
    Prod.mk.injEq, List.not_mem_nil, or_false] at h
  tauto

/-- A series with at most one non-null numeric value has NaN sample
standard deviation. -/
theorem stdPF_nan (s : Series) (h : s.nums.length ≤ 1) : s.stdPF = .nan := by
  unfold Series.stdPF
  rcases hn : s.nums with _ | ⟨a, _ | ⟨b, t⟩⟩
  · rfl
  · rfl
  · rw [hn] at h; simp at h

theorem currentTime_epoch (now : ℚ) (latest : Option TS) :
    (currentTime now latest).epoch = now := by
  rcases latest with _ | ⟨e, _ | z⟩ <;> rfl

theorem lookup_setCol_self (l : List (String × Series)) (c : String) (s : Series)
    (h : c ∈ l.map Prod.fst) :
    (l.map (fun p => if p.1 = c then (p.1, s) else p)).lookup c = some s := by
  induction l with
  | nil => simp at h
  | cons p t ih =>
    rcases p with ⟨a, b⟩
    by_cases hp : a = c
    · subst hp
      have hhead : (if (a, b).1 = a then ((a, b).1, s) else (a, b)) = (a, s) := by
        simp
      rw [List.map_cons, hhead]
      simp [List.lookup]
    · have h2 : c ∈ t.map Prod.fst := by
        simp only [List.map_cons, List.mem_cons] at h
        rcases h with h | h
        · exact absurd h (fun hh => hp hh.symm)
        · exact h
      have hca : (c == a) = false :=
        beq_eq_false_iff_ne.mpr (fun hh => hp hh.symm)
      have hhead : (if (a, b).1 = c then ((a, b).1, s) else (a, b)) = (a, b) := by
        simp [hp]
      rw [List.map_cons, hhead]
      simp only [List.lookup, hca]
      exact ih h2

/-- `validate_freshness` on a missing timestamp column. -/
theorem validate_freshness_missing_eq (now : ℚ) (df : DataFrame) (c : String)
    (maxH : ℚ) (hc : c ∉ df.columns) :
    validate_freshness now df c maxH =
      ⟨false, .missingColumn (missingColMsg c)⟩ := by
  simp [validate_freshness, validate_freshness_st, hc]

/-- `validate_freshness` on a present timestamp column reduces to
`freshVerdict` of the converted column's latest timestamp. -/
theorem validate_freshness_eq (now : ℚ) (df : DataFrame) (c : String)
    (maxH : ℚ) (h : c ∈ df.columns) :
    validate_freshness now df c maxH =
      freshVerdict now (freshLatest df c) maxH := by
  have hcol : (df.setCol c ⟨"datetime64[ns]",
      ((df.getCol c).getD ⟨"", []⟩).cells.map Value.toDatetime⟩).getCol c =
      some ⟨"datetime64[ns]",
        ((df.getCol c).getD ⟨"", []⟩).cells.map Value.toDatetime⟩ :=
    lookup_setCol_self df.cols c _ h
  simp [validate_freshness, validate_freshness_st, h, hcol, freshLatest]

/-- In a freshness verdict, `passed` is false exactly when the details
carry an `error` entry. -/
theorem freshVerdict_passed_iff (now : ℚ) (latest : Option TS) (maxH : ℚ) :
    ((freshVerdict now latest maxH).passed = false ↔
      (freshVerdict now latest maxH).details.hasError = true) := by
  unfold freshVerdict
  rcases latest with _ | l
  · simp [FreshDetails.hasError]
  · simp only [Option.map_some]
    by_cases hgt : maxH < ((currentTime now (some l)).epoch - l.epoch) / 3600 <;>
      simp [hgt, FreshDetails.hasError]

/-- `validate_schema` on a `None` or empty frame. -/
theorem validate_schema_empty_eq (odf : Option DataFrame) (ecols : List String)
    (edts : List (String × String))
    (h : odf = none ∨ ∃ d, odf = some d ∧ d.nrows = 0) :
    validate_schema odf ecols edts =
      ⟨false, [.empty_dataframe "DataFrame is None or empty"]⟩ := by
  rcases h with rfl | ⟨d, rfl, hd⟩
  · rfl
  · simp [validate_schema, DataFrame.isEmptyDf, hd]

/-! ## Claim theorems -/

/-- C3: when `expected` is a recognized family name of the fixed table,
`_dtype_compatible actual expected` is true exactly when `actual` contains
one of the family's registered concrete dtypes as a substring; when
`expected` is not a family name, it is true exactly when `actual` equals
`expected`; in particular `int32` is compatible with family `int` and
`float64` is not. -/
theorem dtype_compatible_spec (actual expected : String) :
    (∀ ds, dtype_mappings.lookup expected = some ds →
      (dtype_compatible actual expected = true ↔
        ∃ d ∈ ds, strIn d actual = true))
    ∧ (dtype_mappings.lookup expected = none →
      (dtype_compatible actual expected = true ↔ actual = expected))
    ∧ dtype_compatible "int32" "int" = true
    ∧ dtype_compatible "float64" "int" = false := by
  refine ⟨?_, ?_, by decide, by decide⟩
  · intro ds hds
    unfold dtype_compatible
    rw [find?_eq_lookup_map, hds]
    simp [List.any_eq_true]
  · intro hnone
    unfold dtype_compatible
    rw [find?_eq_lookup_map, hnone]
    simp

/-- Witness for C3 at `actual = "int32"`, `expected = "int"`. -/
theorem dtype_compatible_spec_witness :
    dtype_mappings.lookup "int" =
      some ["int8", "int16", "int32", "int64", "Int8", "Int16", "Int32", "Int64"]
    ∧ dtype_compatible "int32" "int" = true :=
  ⟨by decide,
   ((dtype_compatible_spec "int32" "int").1
       ["int8", "int16", "int32", "int64", "Int8", "Int16", "Int32", "Int64"]
       (by decide)).mpr
     ⟨"int32", by decide, by decide⟩⟩

/-- C2: on a non-empty frame, a non-empty set difference
`expected − actual` forces `passed = false` and a `missing_columns` error
carrying exactly that difference; extra columns are recorded under
`unexpected_columns`; and `passed` is false exactly when columns are
missing or dtypes mismatch — never from extra columns alone. -/
theorem validate_schema_columns (df : DataFrame) (ecols : List String)
    (edts : List (String × String)) (hne : df.isEmptyDf = false) :
    (ecols.toFinset \ df.columns.toFinset ≠ ∅ →
      (validate_schema (some df) ecols edts).passed = false ∧
      SchemaError.missing_columns (ecols.toFinset \ df.columns.toFinset) ∈
        (validate_schema (some df) ecols edts).errors)
    ∧ (df.columns.toFinset \ ecols.toFinset ≠ ∅ →
      SchemaError.unexpected_columns (df.columns.toFinset \ ecols.toFinset) ∈
        (validate_schema (some df) ecols edts).errors)
    ∧ ((validate_schema (some df) ecols edts).passed = false ↔
      ecols.toFinset \ df.columns.toFinset ≠ ∅ ∨ dtypeMismatches df edts ≠ []) := by
  refine ⟨?_, ?_, ?_⟩
  · intro hm
    simp [validate_schema, hne, hm]
  · intro hu
    simp [validate_schema, hne, hu]
  · simp only [validate_schema, hne, Bool.false_eq_true, if_false]
    simp [List.isEmpty_iff]
    tauto

/-- Witness for C2 on a frame with columns `a`, `b` against expected
columns `a`, `c`. -/
theorem validate_schema_columns_witness :
    df1.isEmptyDf = false
    ∧ (["a", "c"].toFinset \ df1.columns.toFinset ≠ ∅)
    ∧ ((validate_schema (some df1) ["a", "c"] []).passed = false ∧
       SchemaError.missing_columns (["a", "c"].toFinset \ df1.columns.toFinset) ∈
         (validate_schema (some df1) ["a", "c"] []).errors) :=
  ⟨by decide, by decide,
   (validate_schema_columns df1 ["a", "c"] [] (by decide)).1 (by decide)⟩

/-- C6: input errors are reported as results: a `None` or zero-row frame
makes `validate_schema` return `passed = false` with the single
`empty_dataframe` error and nothing else; a missing timestamp column makes
`validate_freshness` return `passed = false` with `details.error` naming
the column; both are plain returns of total functions. -/
theorem input_errors_as_results (odf : Option DataFrame) (ecols : List String)
    (edts : List (String × String)) (now : ℚ) (df : DataFrame) (c : String)
    (maxH : ℚ) :
    ((odf = none ∨ ∃ d, odf = some d ∧ d.nrows = 0) →
      validate_schema odf ecols edts =
        ⟨false, [.empty_dataframe "DataFrame is None or empty"]⟩)
    ∧ (c ∉ df.columns →
      validate_freshness now df c maxH =
        ⟨false, .missingColumn (missingColMsg c)⟩) := by
  constructor
  · rintro (rfl | ⟨d, rfl, hd⟩)
    · rfl
    · simp [validate_schema, DataFrame.isEmptyDf, hd]
  · intro hc
    simp [validate_freshness, validate_freshness_st, hc]

/-- Witness for C6: a zero-row frame and a frame missing column `u`. -/
theorem input_errors_as_results_witness :
    ((some (⟨[("a", ⟨"int64", []⟩)]⟩ : DataFrame) = none ∨
      ∃ d, some (⟨[("a", ⟨"int64", []⟩)]⟩ : DataFrame) = some d ∧ d.nrows = 0)
     ∧ validate_schema (some ⟨[("a", ⟨"int64", []⟩)]⟩) ["a"] [] =
         ⟨false, [.empty_dataframe "DataFrame is None or empty"]⟩)
    ∧ (("u" ∉ dft.columns)
     ∧ validate_freshness 0 dft "u" 24 =
         ⟨false, .missingColumn (missingColMsg "u")⟩) :=
  ⟨⟨Or.inr ⟨_, rfl, rfl⟩,
    (input_errors_as_results (some ⟨[("a", ⟨"int64", []⟩)]⟩) ["a"] [] 0 dft "u" 24).1
      (Or.inr ⟨_, rfl, rfl⟩)⟩,
   ⟨by decide,
    (input_errors_as_results (some ⟨[("a", ⟨"int64", []⟩)]⟩) ["a"] [] 0 dft "u" 24).2
      (by decide)⟩⟩

theorem schema_flaw_iff (odf : Option DataFrame) (ecols : List String)
    (edts : List (String × String)) :
    ((validate_schema odf ecols edts).passed = false ↔
      ∃ e ∈ (validate_schema odf ecols edts).errors,
        e.typeName ≠ "unexpected_columns") := by
  rcases odf with _ | df
  · simp [validate_schema, SchemaError.typeName]
  · by_cases hemp : df.isEmptyDf
    · simp [validate_schema, hemp, SchemaError.typeName]
    · by_cases hm : ecols.toFinset \ df.columns.toFinset = ∅ <;>
      by_cases hl : dtypeMismatches df edts = [] <;>
      by_cases hu : df.columns.toFinset \ ecols.toFinset = ∅ <;>
        simp [validate_schema, hemp, hm, hl, hu, SchemaError.typeName,
          List.isEmpty_iff]

theorem stats_flaw_iff (df : DataFrame) (ncols : List String)
    (thresholds : List (String × List (String × ℚ))) :
    ((validate_statistical_properties df ncols thresholds).passed = false ↔
      (validate_statistical_properties df ncols thresholds).violations ≠ []) := by
  rw [validate_statistical_properties_eq]
  simp [List.isEmpty_iff]

theorem freshness_flaw_iff (now : ℚ) (df : DataFrame) (c : String) (maxH : ℚ) :
    ((validate_freshness now df c maxH).passed = false ↔
      (validate_freshness now df c maxH).details.hasError = true) := by
  by_cases hc : c ∈ df.columns
  · rw [validate_freshness_eq now df c maxH hc]
    exact freshVerdict_passed_iff now (freshLatest df c) maxH
  · rw [validate_freshness_missing_eq now df c maxH hc]
    simp [FreshDetails.hasError]

/-- C1 (amended): `passed = false` holds iff a flaw entry is present — a
schema error entry other than `unexpected_columns`, a statistical
violations entry, or a freshness `details.error`.  (The original claim,
counting `unexpected_columns` entries too, fails:
see the counterexample.) -/
theorem result_passed_iff_flaws (odf : Option DataFrame) (ecols : List String)
    (edts : List (String × String)) (df2 : DataFrame) (ncols : List String)
    (thresholds : List (String × List (String × ℚ))) (now : ℚ)
    (df3 : DataFrame) (c : String) (maxH : ℚ) :
    ((validate_schema odf ecols edts).passed = false ↔
      ∃ e ∈ (validate_schema odf ecols edts).errors,
        e.typeName ≠ "unexpected_columns")
    ∧ ((validate_statistical_properties df2 ncols thresholds).passed = false ↔
      (validate_statistical_properties df2 ncols thresholds).violations ≠ [])
    ∧ ((validate_freshness now df3 c maxH).passed = false ↔
      (validate_freshness now df3 c maxH).details.hasError = true) :=
  ⟨schema_flaw_iff odf ecols edts, stats_flaw_iff df2 ncols thresholds,
   freshness_flaw_iff now df3 c maxH⟩

/-- C1 counterexample: a frame with an extra column only — the result has
`passed = true` while its `errors` list is non-empty (the
`unexpected_columns` entry), refuting the claimed equivalence. -/
theorem result_passed_iff_flaws_cex :
    (validate_schema (some df1) ["a"] []).passed = true ∧
    (validate_schema (some df1) ["a"] []).errors ≠ [] := by
  constructor
  · decide
  · decide

/-- C4: for a column whose sample standard deviation is undefined (at most
one non-null numeric value), `validate_statistical_properties` records no
violation for the `std` statistic under any thresholds (NaN comparisons
are non-violating), and being a total function it raises nothing. -/
theorem std_nan_no_violation (df : DataFrame) (ncols : List String)
    (thresholds : List (String × List (String × ℚ))) (col : String)
    (s : Series) (hs : df.getCol col = some s) (hlen : s.nums.length ≤ 1) :
    ∀ e ∈ (validate_statistical_properties df ncols thresholds).violations,
      e.column = col → ∀ v ∈ e.violations, v.stat ≠ "std" := by
  intro e he hcol v hv hstat
  rw [validate_statistical_properties_eq] at he
  rcases List.mem_flatMap.mp he with ⟨c2, hc2, he2⟩
  unfold statEntry at he2
  cases hg : df.getCol c2 with
  | none => rw [hg] at he2; simp at he2
  | some s2 =>
    rw [hg] at he2
    cases ht : thresholds.lookup c2 with
    | none => rw [ht] at he2; simp at he2
    | some thr =>
      rw [ht] at he2
      by_cases hv2 :
          ((computeStats s2).flatMap (fun p => checkStat thr p.1 p.2)).isEmpty
      · simp [hv2] at he2
      · simp [hv2] at he2
        subst he2
        simp only at hcol
        subst hcol
        have hss : s2 = s := by
          rw [hg] at hs
          exact Option.some.inj hs
        rcases List.mem_flatMap.mp hv with ⟨p, hp, hvp⟩
        rcases p with ⟨n, pv⟩
        have hn : n = "std" := (checkStat_stat thr n pv v hvp).symm.trans hstat
        subst hn
        rcases computeStats_mem s2 "std" pv hp with
          ⟨h5, _⟩ | ⟨_, h6⟩ | ⟨h5, _⟩ | ⟨h5, _⟩ | ⟨h5, _⟩
        · exact absurd h5 (by decide)
        · rw [h6, hss, stdPF_nan s hlen, checkStat_nan] at hvp
          exact List.not_mem_nil v hvp
        · exact absurd h5 (by decide)
        · exact absurd h5 (by decide)
        · exact absurd h5 (by decide)

/-- Witness for C4: a single-row column `x` against a `std_min` bound. -/
theorem std_nan_no_violation_witness :
    (dfx.getCol "x" = some s64 ∧ s64.nums.length ≤ 1)
    ∧ (∀ e ∈ (validate_statistical_properties dfx ["x"]
          [("x", [("std_min", 0)])]).violations,
        e.column = "x" → ∀ v ∈ e.violations, v.stat ≠ "std") :=
  ⟨⟨by decide, by decide⟩,
   std_nan_no_violation dfx ["x"] [("x", [("std_min", 0)])] "x" s64
     (by decide) (by decide)⟩

theorem mem_checkStat_min (t : List (String × ℚ)) (statName : String) (pv : PF)
    (b : ℚ) (hlk : t.lookup (statName ++ "_min") = some b)
    (hlt : pv.ltQ b = true) :
    (⟨statName, pv, b, "below_min"⟩ : StatViolation) ∈ checkStat t statName pv := by
  unfold checkStat
  rw [hlk]
  simp [hlt]

theorem mem_checkStat_max (t : List (String × ℚ)) (statName : String) (pv : PF)
    (b : ℚ) (hlk : t.lookup (statName ++ "_max") = some b)
    (hgt : pv.gtQ b = true) :
    (⟨statName, pv, b, "above_max"⟩ : StatViolation) ∈ checkStat t statName pv := by
  unfold checkStat
  rw [hlk]
  simp [hgt]

theorem stats_entry_conclusion (df : DataFrame) (ncols : List String)
    (thresholds : List (String × List (String × ℚ))) (col : String)
    (s : Series) (t : List (String × ℚ)) (v0 : StatViolation)
    (hcol : col ∈ ncols) (hs : df.getCol col = some s)
    (ht : thresholds.lookup col = some t)
    (hv0 : v0 ∈ (computeStats s).flatMap (fun p => checkStat t p.1 p.2)) :
    (∃ e ∈ (validate_statistical_properties df ncols thresholds).violations,
      e.column = col ∧ v0 ∈ e.violations)
    ∧ (validate_statistical_properties df ncols thresholds).passed = false := by
  have hne :
      ¬ ((computeStats s).flatMap (fun p => checkStat t p.1 p.2)).isEmpty = true := by
    rw [List.isEmpty_iff]
    exact List.ne_nil_of_mem hv0
  have hviols : statEntry df thresholds col =
      [⟨col, (computeStats s).flatMap (fun p => checkStat t p.1 p.2)⟩] := by
    unfold statEntry
    rw [hs, ht]
    simp only [if_neg hne]
  have hmem :
      (⟨col, (computeStats s).flatMap (fun p => checkStat t p.1 p.2)⟩ : ColViolations) ∈
        ncols.flatMap (statEntry df thresholds) :=
    List.mem_flatMap.mpr ⟨col, hcol, by rw [hviols]; exact List.mem_singleton_self _⟩
  rw [validate_statistical_properties_eq]
  refine ⟨⟨_, hmem, rfl, hv0⟩, ?_⟩
  have hne2 : ncols.flatMap (statEntry df thresholds) ≠ [] :=
    List.ne_nil_of_mem hmem
  simp [List.isEmpty_iff, hne2]

/-- C5: for a present column with a threshold entry, a statistic strictly
below its `{stat}_min` bound yields a recorded `below_min` violation and a
statistic strictly above its `{stat}_max` bound yields an `above_max`
violation, either forcing `passed = false`; columns without a threshold
entry contribute no violations entry at all. -/
theorem stat_threshold_violations (df : DataFrame) (ncols : List String)
    (thresholds : List (String × List (String × ℚ))) :
    (∀ col s t statName pv b, col ∈ ncols → df.getCol col = some s →
      thresholds.lookup col = some t → (statName, pv) ∈ computeStats s →
      ((t.lookup (statName ++ "_min") = some b → pv.ltQ b = true →
        (∃ e ∈ (validate_statistical_properties df ncols thresholds).violations,
          e.column = col ∧ ∃ v ∈ e.violations,
            v.stat = statName ∧ v.threshold = b ∧ v.type = "below_min")
        ∧ (validate_statistical_properties df ncols thresholds).passed = false)
      ∧ (t.lookup (statName ++ "_max") = some b → pv.gtQ b = true →
        (∃ e ∈ (validate_statistical_properties df ncols thresholds).violations,
          e.column = col ∧ ∃ v ∈ e.violations,
            v.stat = statName ∧ v.threshold = b ∧ v.type = "above_max")
        ∧ (validate_statistical_properties df ncols thresholds).passed = false)))
    ∧ (∀ col, thresholds.lookup col = none →
        ∀ e ∈ (validate_statistical_properties df ncols thresholds).violations,
          e.column ≠ col) := by
  constructor
  · intro col s t statName pv b hcol hs ht hstat
    constructor
    · intro hlk hlt
      rcases stats_entry_conclusion df ncols thresholds col s t
          ⟨statName, pv, b, "below_min"⟩ hcol hs ht
          (List.mem_flatMap.mpr
            ⟨(statName, pv), hstat, mem_checkStat_min t statName pv b hlk hlt⟩)
        with ⟨⟨e, he, hec, hev⟩, hp⟩
      exact ⟨⟨e, he, hec, ⟨_, hev, rfl, rfl, rfl⟩⟩, hp⟩
    · intro hlk hgt
      rcases stats_entry_conclusion df ncols thresholds col s t
          ⟨statName, pv, b, "above_max"⟩ hcol hs ht
          (List.mem_flatMap.mpr
            ⟨(statName, pv), hstat, mem_checkStat_max t statName pv b hlk hgt⟩)
        with ⟨⟨e, he, hec, hev⟩, hp⟩
      exact ⟨⟨e, he, hec, ⟨_, hev, rfl, rfl, rfl⟩⟩, hp⟩
  · intro col hnone e he hc
    rw [validate_statistical_properties_eq] at he
    rcases List.mem_flatMap.mp he with ⟨c2, hc2, he2⟩
    unfold statEntry at he2
    cases hg : df.getCol c2 with
    | none => rw [hg] at he2; simp at he2
    | some s2 =>
      rw [hg] at he2
      cases ht : thresholds.lookup c2 with
      | none => rw [ht] at he2; simp at he2
      | some thr =>
        rw [ht] at he2
        by_cases hv2 :
            ((computeStats s2).flatMap (fun p => checkStat thr p.1 p.2)).isEmpty
        · simp [hv2] at he2
        · simp [hv2] at he2
          subst he2
          simp only at hc
          subst hc
          rw [hnone] at ht
          exact Option.noConfusion ht

/-- The statistics of the sample one-row column (kernel `decide` cannot
normalize `ℚ` division, so this is established by `norm_num`). -/
theorem computeStats_s64_eq :
    computeStats s64 = [("mean", PF.num 5), ("std", PF.nan), ("min", PF.num 5),
      ("max", PF.num 5), ("null_rate", PF.num 0)] := by
  have hnums : Series.nums s64 = [5] := by
    unfold Series.nums s64
    simp
  unfold computeStats Series.meanPF Series.stdPF Series.minPF Series.maxPF
    Series.nullRatePF
  rw [hnums]
  unfold s64
  norm_num
  decide

/-- Witness for C5: column `x` with mean 5 against `mean_min = 10`. -/
theorem stat_threshold_violations_witness :
    ("x" ∈ ["x"] ∧ dfx.getCol "x" = some s64
      ∧ [("x", [("mean_min", (10 : ℚ))])].lookup "x" = some [("mean_min", (10 : ℚ))]
      ∧ ("mean", PF.num 5) ∈ computeStats s64
      ∧ [("mean_min", (10 : ℚ))].lookup ("mean" ++ "_min") = some 10
      ∧ PF.ltQ (.num 5) 10 = true)
    ∧ ((∃ e ∈ (validate_statistical_properties dfx ["x"]
          [("x", [("mean_min", 10)])]).violations,
        e.column = "x" ∧ ∃ v ∈ e.violations,
          v.stat = "mean" ∧ v.threshold = 10 ∧ v.type = "below_min")
      ∧ (validate_statistical_properties dfx ["x"]
          [("x", [("mean_min", 10)])]).passed = false) :=
  ⟨⟨by decide, by decide, by decide, by simp [computeStats_s64_eq],
    by decide, by decide⟩,
   ((stat_threshold_violations dfx ["x"] [("x", [("mean_min", 10)])]).1
      "x" s64 [("mean_min", (10 : ℚ))] "mean" (.num 5) 10
      (by decide) (by decide) (by decide) (by simp [computeStats_s64_eq])).1
     (by decide) (by decide)⟩

/-- C7: any failure raised inside the delegated suite execution — by suite
lookup, validator construction, or execution — is caught and converted to
`(false, {error: message})`; the exception is never propagated. -/
theorem quality_failure_swallowed (ctx : GxContext) (df : DataFrame)
    (sn msg : String) :
    (ctx.get_expectation_suite sn = .error msg →
      validate_data_quality ctx df sn = (false, .failure msg))
    ∧ (∀ u, ctx.get_expectation_suite sn = .ok u →
      ctx.get_validator sn = .error msg →
      validate_data_quality ctx df sn = (false, .failure msg))
    ∧ (∀ u v, ctx.get_expectation_suite sn = .ok u →
      ctx.get_validator sn = .ok v →
      ctx.validate df = .error msg →
      validate_data_quality ctx df sn = (false, .failure msg)) := by
  refine ⟨?_, ?_, ?_⟩
  · intro h
    simp [validate_data_quality, h, Bind.bind, Except.bind]
  · intro u h1 h2
    simp [validate_data_quality, h1, h2, Bind.bind, Except.bind]
  · intro u v h1 h2 h3
    simp [validate_data_quality, h1, h2, h3, Bind.bind, Except.bind]

/-- Witness for C7: a collaborator whose suite lookup raises. -/
theorem quality_failure_swallowed_witness :
    gxFailCtx.get_expectation_suite "suite" = .error "Suite not found"
    ∧ validate_data_quality gxFailCtx df1 "suite" =
        (false, .failure "Suite not found") :=
  ⟨rfl, (quality_failure_swallowed gxFailCtx df1 "suite" "Suite not found").1 rfl⟩

theorem length_filter_add_length_filter_not {α : Type} (l : List α)
    (p : α → Bool) :
    (l.filter p).length + (l.filter (fun a => ! p a)).length = l.length := by
  induction l with
  | nil => rfl
  | cons a t ih =>
    by_cases h : p a = true <;> simp [List.filter, h, ← ih] <;> omega

/-- C8: the report counts every record, counts as passed exactly the
records whose `passed` value is `true` (a missing value counts as failed),
and `passed + failed = total_validations` always. -/
theorem report_counts (rs : List ReportEntry) :
    (generate_validation_report rs).total_validations = rs.length
    ∧ (generate_validation_report rs).passed =
        (rs.filter (fun r => r.passed.getD false)).length
    ∧ (generate_validation_report rs).passed +
        (generate_validation_report rs).failed =
        (generate_validation_report rs).total_validations
    ∧ (generate_validation_report rs).failed =
        rs.length - (generate_validation_report rs).passed := by
  have h := length_filter_add_length_filter_not rs (fun r => r.passed.getD false)
  refine ⟨rfl, rfl, h, ?_⟩
  show (rs.filter (fun r => ! r.passed.getD false)).length =
    rs.length - (rs.filter (fun r => r.passed.getD false)).length
  omega

/-- C9: `validate_freshness` never mutates the caller's dataframe: the
heap cell the caller's reference points to is unchanged by the call (the
timestamp conversion writes only to the freshly allocated copy). -/
theorem freshness_no_mutation (now : ℚ) (h : PdHeap) (ref : Nat) (c : String)
    (maxH : ℚ) (href : ref < h.dfs.length) :
    (validate_freshness_st now h ref c maxH).1.dfs[ref]? = h.dfs[ref]? := by
  unfold validate_freshness_st
  by_cases hc : c ∈ (h.dfs.getD ref ⟨[]⟩).columns
  · simp only [hc, if_true]
    have hne : h.dfs.length ≠ ref := Nat.ne_of_gt href
    rw [List.getElem?_set_ne hne, List.getElem?_append_left href]
  · have hc2 : c ∉ ((h.dfs[ref]?).getD ⟨[]⟩).columns := by
      simpa [List.getD] using hc
    simp [hc2]

/-- Witness for C9 on a one-cell heap. -/
theorem freshness_no_mutation_witness :
    0 < (PdHeap.mk [dft]).dfs.length
    ∧ (validate_freshness_st 0 ⟨[dft]⟩ 0 "t" 24).1.dfs[0]? =
        (PdHeap.mk [dft]).dfs[0]? :=
  ⟨by decide, freshness_no_mutation 0 ⟨[dft]⟩ 0 "t" 24 (by decide)⟩

/-- C10: the staleness bound is strict — when the computed
`staleness_hours` is at most `max_staleness_hours` (equality included),
the result passes and its details carry no error entry. -/
theorem freshness_within_bound_passes (now : ℚ) (df : DataFrame) (c : String)
    (maxH sh : ℚ) (hc : c ∈ df.columns)
    (hst : freshStaleness now df c = some sh) (hle : sh ≤ maxH) :
    (validate_freshness now df c maxH).passed = true ∧
    (validate_freshness now df c maxH).details.hasError = false := by
  rw [validate_freshness_eq now df c maxH hc]
  rcases hl : freshLatest df c with _ | l
  · unfold freshStaleness at hst
    rw [hl] at hst
    simp at hst
  · have hsh : (now - l.epoch) / 3600 = sh := by
      unfold freshStaleness at hst
      rw [hl] at hst
      simpa using hst
    have hng : ¬ (maxH < sh) := not_lt.mpr hle
    unfold freshVerdict
    simp [currentTime_epoch, hsh, hng, FreshDetails.hasError]

/-- Staleness of the sample timestamp frame at `now = 90000` s: exactly
24 hours (kernel `decide` cannot normalize `ℚ` division, so `norm_num`). -/
theorem freshStaleness_dft_eq : freshStaleness 90000 dft "t" = some 24 := by
  unfold freshStaleness freshLatest dft DataFrame.getCol latestTS
    Value.toDatetime
  norm_num [List.lookup]

/-- Witness for C10: latest timestamp exactly 24 hours old against a
24-hour bound. -/
theorem freshness_within_bound_passes_witness :
    ("t" ∈ dft.columns ∧ freshStaleness 90000 dft "t" = some 24
      ∧ (24 : ℚ) ≤ 24)
    ∧ ((validate_freshness 90000 dft "t" 24).passed = true ∧
       (validate_freshness 90000 dft "t" 24).details.hasError = false) :=
  ⟨⟨by decide, freshStaleness_dft_eq, by decide⟩,
   freshness_within_bound_passes 90000 dft "t" 24 24
     (by decide) freshStaleness_dft_eq (by decide)⟩

end DataValidator
